import Mathlib

/-!
Verification development for the SOS live-tracker web client.

The definitions below are a shallow embedding of the client-side
session-authorization workflow: the token validator
(`src/utils/TokenValidator.js`), the session access gate
(`src/components/SessionAccess.tsx`, both iterations, and the SDK-based
iteration), the map view's token resolution, polling loop and accuracy
overlay (`src/components/MapTracker.tsx` and the newer iteration), and the
global fetch interceptor (`src/utils/firebaseInterceptor.ts`, both
iterations).  External browser and backend effects (fetch outcomes, the
document store, localStorage) are modelled as explicit parameters and
state; JavaScript string truthiness is modelled explicitly.
-/

namespace SosTracker

/-- JavaScript truthiness of a nullable string value: `null`/`undefined` and
the empty string are falsy, every other string is truthy. -/
def strTruthy : Option String → Bool
  | none => false
  | some s => !(s == "")

/-- Model of the browser's encodeURIComponent.  For the plain alphanumeric
tokens exercised here it is the identity; percent-encoding of reserved
characters is an external browser primitive that no verified claim
depends on. -/
def encodeURIComponent (s : String) : String := s

namespace TokenValidator

/-- The part of a fetched session document's `fields` member that the
validator inspects: `accessToken` is `fields.accessToken.stringValue` when
the field is present with a string value, `none` otherwise. -/
structure Fields where
  accessToken : Option String
  deriving DecidableEq

/-- The parsed JSON body of a successful fetch (`data` in the source).
`fields` is `none` when the body carries no `fields` member, so that
`data?.fields` is undefined. -/
structure DocData where
  fields : Option Fields
  deriving DecidableEq

/-- Outcome of the document GET as observed by `validateSosToken`:
the fetch (or `response.json()`) threw, the response was non-ok with a
status, or the body parsed to `data` (`none` models a null body). -/
inductive FetchOutcome where
  | thrown (message : String)
  | notOk (status : Nat) (statusText : String)
  | ok (data : Option DocData)
  deriving DecidableEq

/-- The result object returned by `validateSosToken`. -/
structure ValidationResult where
  isValid : Bool
  error : Option String
  statusCode : Option Nat
  sessionData : Option DocData
  deriving DecidableEq

/-- Shallow embedding of `validateSosToken` from
`src/utils/TokenValidator.js`.  The network interaction is supplied as the
`outcome` parameter; everything else follows the source line by line:
missing (falsy) parameters short-circuit; a thrown fetch is caught and its
message returned; a non-ok response distinguishes 404 from other statuses;
on a parsed body, a truthy `fields` object with a truthy `accessToken`
string is compared for strict equality with the supplied token, a truthy
`fields` object without a truthy `accessToken` is allowed through
unconditionally, and anything else reports the session as not found. -/
def validateSosToken (sessionId token projectId apiKey : String)
    (outcome : FetchOutcome) : ValidationResult :=
  if sessionId = "" ∨ token = "" ∨ projectId = "" ∨ apiKey = "" then
    ⟨false, some "Missing required parameters", none, none⟩
  else
    match outcome with
    | .thrown message => ⟨false, some message, none, none⟩
    | .notOk status statusText =>
        if status = 404 then
          ⟨false, some "Session not found", some status, none⟩
        else
          ⟨false, some ("API Error: " ++ toString status ++ " " ++ statusText),
            some status, none⟩
    | .ok data =>
        match data with
        | none => ⟨false, some "Session not found", none, none⟩
        | some d =>
            match d.fields with
            | none => ⟨false, some "Session not found", none, none⟩
            | some f =>
                if strTruthy f.accessToken then
                  if f.accessToken = some token then
                    ⟨true, none, none, some d⟩
                  else
                    ⟨false, some "Invalid access token", none, none⟩
                else
                  ⟨true, none, none, some d⟩

/-- Shallow embedding of `getAccessToken` from `src/utils/TokenValidator.js`.
`urlToken` is `new URLSearchParams(window.location.search).get('token')`
and `storedToken` is `localStorage.getItem('sos_access_token')`; the result
is the returned token together with the `sos_access_token` entry after the
call (a truthy URL token is stored for future use, otherwise storage is
untouched and its value returned as-is). -/
def getAccessToken (urlToken storedToken : Option String) :
    Option String × Option String :=
  if strTruthy urlToken then (urlToken, urlToken)
  else (storedToken, storedToken)

end TokenValidator

namespace SessionAccess

/-- Observable outcome of one run of a SessionAccess effect: whether the
document store was contacted, the localStorage writes
(`sos_access_token`, `sos_session_id`, `emergency_public_access`), the
rendered error message if any, and the navigation target if any. -/
structure GateOutcome where
  fetched : Bool
  storedToken : Option String
  storedSessionId : Option String
  storedPublicAccess : Bool
  error : Option String
  navigateTo : Option String
  deriving DecidableEq

/-- Outcome of the best-effort access-log append (the PATCH in the REST gate,
`updateDoc` in the SDK gate): success, a non-success status, or a throw. -/
inductive PatchOutcome where
  | ok
  | notOk (status : Nat)
  | thrown (message : String)
  deriving DecidableEq

/-- Shallow embedding of `processSession` from the simplified iteration of
`src/components/SessionAccess.tsx`: when the route session id or the query
token is falsy it only logs and returns — no store write, no error set, no
navigation, and the component keeps rendering its loading view; otherwise
it stores both values and redirects to the map with the encoded token,
without ever contacting the network. -/
def processSession (sessionId accessToken : Option String) : GateOutcome :=
  if !strTruthy sessionId || !strTruthy accessToken then
    { fetched := false, storedToken := none, storedSessionId := none,
      storedPublicAccess := false, error := none, navigateTo := none }
  else
    let sid := sessionId.getD ""
    let tok := accessToken.getD ""
    { fetched := false, storedToken := some tok, storedSessionId := some sid,
      storedPublicAccess := false, error := none,
      navigateTo := some ("/map/" ++ sid ++ "?token=" ++ encodeURIComponent tok) }

/-- Shallow embedding of `validateSession` from the validating (REST)
iteration of `src/components/SessionAccess.tsx`.  A falsy session id or
token renders an error before any fetch.  Otherwise the GET outcome is
examined: a throw is caught by the outer handler, a non-ok response renders
the invalid-link error, and on a parsed body the supplied token is compared
with `fields?.accessToken?.stringValue || ''`.  On a match the access-log
PATCH is attempted inside its own try/catch whose failure is only warned
about, then the session id, public-access flag and token are stored and the
gate navigates to the map with the raw token in the URL. -/
def validateSession (sessionId accessToken : Option String)
    (outcome : TokenValidator.FetchOutcome) (patch : PatchOutcome) :
    GateOutcome :=
  if !strTruthy sessionId then
    { fetched := false, storedToken := none, storedSessionId := none,
      storedPublicAccess := false, error := some "Invalid session link",
      navigateTo := none }
  else if !strTruthy accessToken then
    { fetched := false, storedToken := none, storedSessionId := none,
      storedPublicAccess := false,
      error := some "This emergency link is missing a required access token. Please use the complete link sent in the SOS message.",
      navigateTo := none }
  else
    let sid := sessionId.getD ""
    let tok := accessToken.getD ""
    match outcome with
    | .thrown _ =>
        { fetched := true, storedToken := none, storedSessionId := none,
          storedPublicAccess := false,
          error := some "Failed to validate session access", navigateTo := none }
    | .notOk _ _ =>
        { fetched := true, storedToken := none, storedSessionId := none,
          storedPublicAccess := false,
          error := some "Invalid emergency access link. Please check that you\x27re using the complete link sent in the SOS message.",
          navigateTo := none }
    | .ok data =>
        let fieldToken :=
          ((data.bind TokenValidator.DocData.fields).bind
            TokenValidator.Fields.accessToken).getD ""
        if tok ≠ fieldToken then
          { fetched := true, storedToken := none, storedSessionId := none,
            storedPublicAccess := false,
            error := some "Invalid emergency access link. Please check that you\x27re using the complete link sent in the SOS message.",
            navigateTo := none }
        else
          match patch with
          | _ =>
              { fetched := true, storedToken := some tok,
                storedSessionId := some sid, storedPublicAccess := true,
                error := none,
                navigateTo := some ("/map/" ++ sid ++ "?token=" ++ tok) }

/-- Outcome of the SDK `getDoc` call as observed by the SDK gate iteration:
a throw, a non-existing snapshot, or document data whose `accessToken`
field is the given optional string. -/
inductive SdkDocOutcome where
  | thrown (message : String)
  | missing
  | data (accessToken : Option String)
  deriving DecidableEq

/-- Shallow embedding of `validateSession` from the SDK-based SessionAccess
iteration (the fourth source part).  A falsy session id renders an error
before any fetch; a missing document renders the not-found error; a
document whose truthy `accessToken` field differs from the (truthy)
supplied token renders the invalid-link error.  Otherwise the `updateDoc`
access-log append is attempted inside its own try/catch whose failure is
only warned about, the session id and public-access flag are stored, and —
when a token was supplied — the token is stored and the gate navigates to
the map; without a token it renders the missing-token error instead. -/
def validateSessionSdk (sessionId accessToken : Option String)
    (docOutcome : SdkDocOutcome) (patch : PatchOutcome) : GateOutcome :=
  if !strTruthy sessionId then
    { fetched := false, storedToken := none, storedSessionId := none,
      storedPublicAccess := false, error := some "Invalid session link",
      navigateTo := none }
  else
    let sid := sessionId.getD ""
    match docOutcome with
    | .thrown _ =>
        { fetched := true, storedToken := none, storedSessionId := none,
          storedPublicAccess := false,
          error := some "Failed to validate session access", navigateTo := none }
    | .missing =>
        { fetched := true, storedToken := none, storedSessionId := none,
          storedPublicAccess := false,
          error := some "SOS session not found", navigateTo := none }
    | .data fieldToken =>
        let isValidAccess := strTruthy accessToken && accessToken == fieldToken
        if !isValidAccess && strTruthy fieldToken then
          { fetched := true, storedToken := none, storedSessionId := none,
            storedPublicAccess := false,
            error := some "Invalid emergency access link. Please check that you\x27re using the complete link sent in the SOS message.",
            navigateTo := none }
        else
          match patch with
          | _ =>
              if strTruthy accessToken then
                let tok := accessToken.getD ""
                { fetched := true, storedToken := some tok,
                  storedSessionId := some sid, storedPublicAccess := true,
                  error := none,
                  navigateTo := some ("/map/" ++ sid ++ "?token=" ++ tok) }
              else
                { fetched := true, storedToken := none,
                  storedSessionId := some sid, storedPublicAccess := true,
                  error := some "This emergency link is missing a required access token. Please use the complete link sent in the SOS message.",
                  navigateTo := none }

end SessionAccess

namespace MapTracker

/-- Ordered observable effects of the Map View mount sequence that the
claims constrain: a write of the access token to localStorage, a REST
fetch issued with a given token, or a rendered error message. -/
inductive Event where
  | storeWrite (token : String)
  | fetchWith (token : String)
  | errorShown (message : String)
  deriving DecidableEq

/-- Token-resolution prefix of the `MapTracker.tsx` mount effect together
with the token choice made by its `fetchSessionData`: a truthy URL token is
written to `sos_access_token` before anything else, and the first poll's
`fetchSessionData` then resolves `searchParams.get('token') ||
localStorage.getItem('sos_access_token')`, so the URL token is the one
fetched with; with no truthy URL token a truthy stored token is fetched
with unchanged; with neither, the missing-token error is rendered and no
fetch happens. -/
def mapTrackerInitEvents (urlToken storedToken : Option String) : List Event :=
  if strTruthy urlToken then
    [.storeWrite (urlToken.getD ""), .fetchWith (urlToken.getD "")]
  else if strTruthy storedToken then
    [.fetchWith (storedToken.getD "")]
  else
    [.errorShown "Missing access token. Please use the complete emergency link sent in the SOS message."]

/-- Token-resolution prefix of `initialise` from the newer Map View
iteration: a truthy URL token is stored first, then
`accessToken = urlToken || localStorage.getItem('sos_access_token')` is
computed; a falsy result throws the missing-token error (caught and
rendered), otherwise the poll fetches with the resolved token. -/
def initialiseEvents (urlToken storedToken : Option String) : List Event :=
  if strTruthy urlToken then
    [.storeWrite (urlToken.getD ""), .fetchWith (urlToken.getD "")]
  else if strTruthy storedToken then
    [.fetchWith (storedToken.getD "")]
  else
    [.errorShown "Missing access token. Please use the complete emergency link."]

/-- The Map View component state that the polling claims constrain: the
decoded session shown (abstracted as `α`), the `loading` flag and the
`error` message. -/
structure PollState (α : Type) where
  session : Option α
  loading : Bool
  error : Option String
  deriving DecidableEq

/-- What the `MapTracker.tsx` render function shows for a given state:
the loading view while `loading` is set, else the error view when `error`
is set, else the map. -/
inductive Rendered where
  | loadingView
  | errorView (message : String)
  | mapView
  deriving DecidableEq

/-- The render branch of `MapTracker.tsx`. -/
def render {α : Type} (st : PollState α) : Rendered :=
  if st.loading then .loadingView
  else
    match st.error with
    | some m => .errorView m
    | none => .mapView

/-- One tick of `pollData` from `MapTracker.tsx`.  `tick` is the result of
`fetchSessionData` (`none` when it caught an error and returned null).
`capturedLoading` is the value of the `loading` state variable captured by
the mount effect closure that created `pollData`: the effect's dependency
array is `[sessionId]`, so the closure is created once at mount with
`loading = true` and is never refreshed, even after `setLoading(false)`
runs.  A successful tick stores the session and clears `loading` but does
not clear `error`; a failed tick sets the error whenever the captured
`loading` is true. -/
def pollData {α : Type} (capturedLoading : Bool) (st : PollState α)
    (tick : Option α) : PollState α :=
  match tick with
  | some d => { st with session := some d, loading := false }
  | none =>
      if capturedLoading then
        { st with
          error := some "Could not load SOS session data. Please try refreshing.",
          loading := false }
      else st

/-- A run of the `MapTracker.tsx` anonymous polling loop over a list of
tick results, from the freshly mounted state.  The captured `loading`
value is `true` for every tick, as the closure is created at mount. -/
def pollRun {α : Type} (ticks : List (Option α)) : PollState α :=
  ticks.foldl (pollData true) ⟨none, true, none⟩

/-- One tick of `poll` from the newer Map View iteration: a successful
tick goes through `handleIncomingSession` (stores the session, clears
`loading` and `error`), while a failed tick sets the error
unconditionally. -/
def poll {α : Type} (st : PollState α) (tick : Option α) : PollState α :=
  match tick with
  | some d => { session := some d, loading := false, error := none }
  | none => { st with error := some "Unable to load SOS session data." }

/-- A run of the newer iteration's anonymous polling loop over a list of
tick results, from the freshly mounted state. -/
def pollRun001 {α : Type} (ticks : List (Option α)) : PollState α :=
  ticks.foldl poll ⟨none, true, none⟩

/-- The error overlay of the newer Map View iteration is rendered exactly
when `error` is set (it covers the map regardless of `loading`). -/
def errorOverlayShown {α : Type} (st : PollState α) : Bool :=
  st.error.isSome

/-- A Google-Maps circle overlay handle: `id` tracks object identity
(creation order), `onMap` whether the overlay is attached to the map. -/
structure CircleObj where
  id : Nat
  center : Int × Int
  radius : Int
  onMap : Bool
  deriving DecidableEq

/-- The location part of a decoded session update; `accuracy` is absent
when the wire document carries none. -/
structure Location where
  latitude : Int
  longitude : Int
  accuracy : Option Int
  deriving DecidableEq

/-- The accuracy-overlay portion of `updateMapMarker` in `MapTracker.tsx`:
whenever the update has a location whose `accuracy` is truthy (any
non-zero number, including negative ones), a brand-new
`google.maps.Circle` is constructed and attached to the map; no reference
to it is kept and no previously drawn circle is ever removed.  The state
is the id counter together with every circle drawn so far. -/
def updateAccuracyCircles (st : Nat × List CircleObj) (loc : Option Location) :
    Nat × List CircleObj :=
  match loc with
  | none => st
  | some l =>
      match l.accuracy with
      | some a =>
          if a ≠ 0 then
            (st.1 + 1, st.2 ++ [⟨st.1, (l.latitude, l.longitude), a, true⟩])
          else st
      | none => st

/-- A run of the `MapTracker.tsx` accuracy-overlay updates over a list of
session updates, starting with no circles drawn. -/
def runUpdatesMt (updates : List (Option Location)) : Nat × List CircleObj :=
  updates.foldl updateAccuracyCircles (0, [])

/-- The accuracy-overlay portion of `updateMapMarker` in the newer Map View
iteration: at most one circle object is ever created and kept in
`accuracyCircleRef`; an update with a strictly positive accuracy
re-centers it, sets its radius to `max accuracy 10` and attaches it to the
map, while any other update detaches it (`setMap(null)`) if it exists.
The state is the id counter together with the current ref contents. -/
def updateAccuracyCircle (st : Nat × Option CircleObj) (loc : Option Location) :
    Nat × Option CircleObj :=
  match loc with
  | none => st
  | some l =>
      match l.accuracy with
      | some a =>
          if 0 < a then
            match st.2 with
            | none =>
                (st.1 + 1, some ⟨st.1, (l.latitude, l.longitude), max a 10, true⟩)
            | some c =>
                (st.1, some { c with center := (l.latitude, l.longitude),
                                     radius := max a 10, onMap := true })
          else
            match st.2 with
            | none => st
            | some c => (st.1, some { c with onMap := false })
      | none =>
          match st.2 with
          | none => st
          | some c => (st.1, some { c with onMap := false })

/-- A run of the newer iteration's accuracy-overlay updates over a list of
session updates, starting with no circle created. -/
def runUpdates001 (updates : List (Option Location)) : Nat × Option CircleObj :=
  updates.foldl updateAccuracyCircle (0, none)

end MapTracker

namespace Interceptor

/-- JavaScript's `String.prototype.includes`, as a decidable substring
test on the underlying character lists. -/
def jsIncludes (s pat : String) : Bool := decide (pat.data <:+: s.data)

/-- The first argument of `fetch`: either a plain URL string (anything
that is not a `Request` is stringified in the source) or a `Request`
object with its resolved URL and method. -/
inductive FetchInput where
  | str (url : String)
  | request (url : String) (method : String)
  deriving DecidableEq

/-- The URL the interceptor extracts from a fetch input
(`input.url` for a `Request`, `input.toString()` otherwise). -/
def FetchInput.url : FetchInput → String
  | .str u => u
  | .request u _ => u

/-- Abstract model of `URL.searchParams.set('token', t)` on a URL string:
an external browser primitive, reached only on the request-modifying paths
that no verified claim constrains. -/
def urlSetTokenParam (url token : String) : String :=
  url ++ "&token=" ++ token

/-- The string-URL modification performed by the interceptor: append the
encoded token with `?` or `&` depending on whether the URL already has a
query string. -/
def addTokenToStringUrl (url token : String) : String :=
  url ++ (if jsIncludes url "?" then "&" else "?") ++ "token="
      ++ encodeURIComponent token

/-- Abstract model of `new URL(url).searchParams.has('token')`: an
external browser primitive, consulted only on the request-modifying paths
that no verified claim constrains. -/
def urlHasTokenParam (url : String) : Bool := jsIncludes url "token="

/-- The fetch input that the first interceptor iteration's `newFetch`
finally hands to the original fetch.  `tokenVal` models
`urlParams.get('token') || localStorage.getItem('sos_access_token')`.
Only URLs containing both `firestore.googleapis.com` and `sos_sessions`
are touched, and only when the token is truthy; every other input is
forwarded as-is. -/
def newFetchV1 (tokenVal : Option String) (input : FetchInput) : FetchInput :=
  let url := input.url
  if jsIncludes url "firestore.googleapis.com" && jsIncludes url "sos_sessions" then
    if strTruthy tokenVal then
      let token := tokenVal.getD ""
      match input with
      | .request u m => .request (urlSetTokenParam u token) m
      | .str u => .str (addTokenToStringUrl u token)
    else input
  else input

/-- The fetch input that the second interceptor iteration's `newFetch`
finally hands to the original fetch.  Streaming requests
(URL containing `/Listen/` or `channel?`) are forwarded untouched, as are
URLs without `sos_sessions`, URLs that already carry a token parameter,
and non-GET `Request` objects; only the remaining `sos_sessions` document
requests get the token injected. -/
def newFetchV2 (tokenVal : Option String) (input : FetchInput) : FetchInput :=
  let url := input.url
  if jsIncludes url "firestore.googleapis.com" then
    if strTruthy tokenVal then
      let token := tokenVal.getD ""
      if jsIncludes url "/Listen/" || jsIncludes url "channel?" then input
      else if jsIncludes url "sos_sessions" then
        if urlHasTokenParam url then input
        else
          match input with
          | .str u => .str (addTokenToStringUrl u token)
          | .request u m =>
              if m = "GET" then .request (urlSetTokenParam u token) m
              else input
      else input
    else input
  else input

/-- The full argument pair `(input, init)` that the first interceptor
iteration passes to the original fetch; `init` is forwarded verbatim on
every code path. -/
def newFetchV1Call {I : Type} (tokenVal : Option String) (input : FetchInput)
    (init : I) : FetchInput × I :=
  (newFetchV1 tokenVal input, init)

/-- The full argument pair `(input, init)` that the second interceptor
iteration passes to the original fetch; `init` is forwarded verbatim on
every code path. -/
def newFetchV2Call {I : Type} (tokenVal : Option String) (input : FetchInput)
    (init : I) : FetchInput × I :=
  (newFetchV2 tokenVal input, init)

end Interceptor

/-!
Theorems settling the claims.  Each claim has exactly one theorem;
counterexamples are closed evaluations of the embedded code at concrete
inputs, and each theorem with hypotheses has a closed witness applying it.
-/

open TokenValidator SessionAccess MapTracker Interceptor

/-- C1 (counterexample): the claim fails as stated when the document's
`accessToken` field is present but holds the empty string.  The supplied
token `"tokX"` differs from the field value `""`, yet `validateSosToken`
returns authorized with the document attached, because the source guards
the comparison with JavaScript truthiness (`sessionData && storedAccessToken`)
and an empty-string field falls through to the permissive branch. -/
theorem validateSosToken_empty_token_field_counterexample :
    validateSosToken "s1" "tokX" "proj" "key" (.ok (some ⟨some ⟨some ""⟩⟩))
      = ⟨true, none, none, some ⟨some ⟨some ""⟩⟩⟩
    ∧ "tokX" ≠ "" := by
  decide

/-- C1 (amended): when the fetched document exists and carries a
non-empty `accessToken` string field, the result is authorized with the
document attached iff the supplied token equals the field value, and a
mismatch yields the token-mismatch error with no document attached. -/
theorem validateSosToken_nonempty_token_equality
    (sessionId token projectId apiKey t : String) (d : DocData) (f : Fields)
    (hsid : sessionId ≠ "") (htok : token ≠ "") (hpid : projectId ≠ "")
    (hkey : apiKey ≠ "") (hf : d.fields = some f) (ht : f.accessToken = some t)
    (hne : t ≠ "") :
    ((validateSosToken sessionId token projectId apiKey (.ok (some d))).isValid = true
        ∧ (validateSosToken sessionId token projectId apiKey
            (.ok (some d))).sessionData = some d
      ↔ t = token)
    ∧ (t ≠ token →
        validateSosToken sessionId token projectId apiKey (.ok (some d))
          = ⟨false, some "Invalid access token", none, none⟩) := by
  by_cases h : t = token <;>
    simp [validateSosToken, hsid, htok, hpid, hkey, hf, ht, hne, strTruthy, h]

/-- Witness for C1: with the stored field `"abc123"`, the matching token is
authorized with the document attached, and the token `"wrong"` is rejected
with the token-mismatch error. -/
theorem validateSosToken_nonempty_token_equality_witness :
    ((validateSosToken "s1" "abc123" "proj" "key"
        (.ok (some ⟨some ⟨some "abc123"⟩⟩))).isValid = true
      ∧ (validateSosToken "s1" "abc123" "proj" "key"
          (.ok (some ⟨some ⟨some "abc123"⟩⟩))).sessionData
        = some ⟨some ⟨some "abc123"⟩⟩)
    ∧ validateSosToken "s1" "wrong" "proj" "key"
        (.ok (some ⟨some ⟨some "abc123"⟩⟩))
      = ⟨false, some "Invalid access token", none, none⟩ :=
  ⟨(validateSosToken_nonempty_token_equality "s1" "abc123" "proj" "key" "abc123"
      ⟨some ⟨some "abc123"⟩⟩ ⟨some "abc123"⟩ (by decide) (by decide) (by decide)
      (by decide) rfl rfl (by decide)).1.mpr rfl,
   (validateSosToken_nonempty_token_equality "s1" "wrong" "proj" "key" "abc123"
      ⟨some ⟨some "abc123"⟩⟩ ⟨some "abc123"⟩ (by decide) (by decide) (by decide)
      (by decide) rfl rfl (by decide)).2 (by decide)⟩

/-- C2 (confirmed): when the fetched document exists (has a truthy `fields`
object) but carries no `accessToken` field, `validateSosToken` authorizes
unconditionally with the document attached, whatever truthy token was
supplied — the permissive back-compatibility fallback. -/
theorem validateSosToken_no_token_field_permissive
    (sessionId token projectId apiKey : String) (d : DocData) (f : Fields)
    (hsid : sessionId ≠ "") (htok : token ≠ "") (hpid : projectId ≠ "")
    (hkey : apiKey ≠ "") (hf : d.fields = some f) (ht : f.accessToken = none) :
    validateSosToken sessionId token projectId apiKey (.ok (some d))
      = ⟨true, none, none, some d⟩ := by
  simp [validateSosToken, hsid, htok, hpid, hkey, hf, ht, strTruthy]

/-- Witness for C2: a document without an `accessToken` field is authorized
for an arbitrary supplied token. -/
theorem validateSosToken_no_token_field_permissive_witness :
    validateSosToken "s1" "anyTokenAtAll" "proj" "key" (.ok (some ⟨some ⟨none⟩⟩))
      = ⟨true, none, none, some ⟨some ⟨none⟩⟩⟩ :=
  validateSosToken_no_token_field_permissive "s1" "anyTokenAtAll" "proj" "key"
    ⟨some ⟨none⟩⟩ ⟨none⟩ (by decide) (by decide) (by decide) (by decide) rfl rfl

/-- C3 (confirmed): a not-found response (HTTP 404, as well as an ok
response whose body carries no document data) yields an unauthorized
result with exactly the message `"Session not found"` and no document, for
every supplied (truthy) token, while every other non-success status yields
the transport error carrying the underlying status instead. -/
theorem validateSosToken_not_found_distinct
    (sessionId token projectId apiKey statusText : String)
    (hsid : sessionId ≠ "") (htok : token ≠ "") (hpid : projectId ≠ "")
    (hkey : apiKey ≠ "") :
    validateSosToken sessionId token projectId apiKey (.notOk 404 statusText)
        = ⟨false, some "Session not found", some 404, none⟩
    ∧ (∀ status : Nat, status ≠ 404 →
        validateSosToken sessionId token projectId apiKey (.notOk status statusText)
          = ⟨false, some ("API Error: " ++ toString status ++ " " ++ statusText),
              some status, none⟩)
    ∧ validateSosToken sessionId token projectId apiKey (.ok none)
        = ⟨false, some "Session not found", none, none⟩
    ∧ validateSosToken sessionId token projectId apiKey (.ok (some ⟨none⟩))
        = ⟨false, some "Session not found", none, none⟩ := by
  refine ⟨?_, fun status hstatus => ?_, ?_, ?_⟩ <;>
    simp_all [validateSosToken, hsid, htok, hpid, hkey]

/-- Witness for C3: a 404 yields the not-found result and a 403 yields the
transport error carrying the status. -/
theorem validateSosToken_not_found_distinct_witness :
    validateSosToken "s1" "tok" "proj" "key" (.notOk 404 "Not Found")
        = ⟨false, some "Session not found", some 404, none⟩
    ∧ validateSosToken "s1" "tok" "proj" "key" (.notOk 403 "Forbidden")
        = ⟨false, some ("API Error: " ++ toString 403 ++ " " ++ "Forbidden"),
            some 403, none⟩ :=
  ⟨(validateSosToken_not_found_distinct "s1" "tok" "proj" "key" "Not Found"
      (by decide) (by decide) (by decide) (by decide)).1,
   (validateSosToken_not_found_distinct "s1" "tok" "proj" "key" "Forbidden"
      (by decide) (by decide) (by decide) (by decide)).2.1 403 (by decide)⟩

/-- C4 (counterexample): the claim fails as stated on the simplified
iteration of the access gate.  Visiting it with a session id but no token
issues no network request, but it also renders no error: `processSession`
just logs and returns, leaving the component on its loading view with no
stored token and no redirect, instead of transitioning to a failed state. -/
theorem processSession_missing_token_renders_no_error :
    (processSession (some "abc123") none).error = none
    ∧ (processSession (some "abc123") none).fetched = false
    ∧ (processSession (some "abc123") none).navigateTo = none
    ∧ (processSession (some "abc123") none).storedToken = none := by
  decide

/-- C4 (amended): when the session id or the token is absent, neither gate
iteration issues any network request; the validating iteration renders an
error immediately with no redirect, while the simplified iteration renders
no error at all and performs no action (it stays on its loading view). -/
theorem sessionAccess_missing_params_short_circuit
    (sessionId accessToken : Option String)
    (outcome : TokenValidator.FetchOutcome) (patch : PatchOutcome)
    (h : strTruthy sessionId = false ∨ strTruthy accessToken = false) :
    ((validateSession sessionId accessToken outcome patch).fetched = false
      ∧ (validateSession sessionId accessToken outcome patch).error ≠ none
      ∧ (validateSession sessionId accessToken outcome patch).navigateTo = none)
    ∧ ((processSession sessionId accessToken).fetched = false
      ∧ (processSession sessionId accessToken).error = none
      ∧ (processSession sessionId accessToken).navigateTo = none
      ∧ (processSession sessionId accessToken).storedToken = none) := by
  rcases h with h | h <;>
    by_cases hs : strTruthy sessionId = true <;>
      simp_all [validateSession, processSession]

/-- Witness for C4 (amended): a visit with a session id but no token. -/
theorem sessionAccess_missing_params_short_circuit_witness :
    ((validateSession (some "abc123") none (.ok none) .ok).fetched = false
      ∧ (validateSession (some "abc123") none (.ok none) .ok).error ≠ none
      ∧ (validateSession (some "abc123") none (.ok none) .ok).navigateTo = none)
    ∧ ((processSession (some "abc123") none).fetched = false
      ∧ (processSession (some "abc123") none).error = none
      ∧ (processSession (some "abc123") none).navigateTo = none
      ∧ (processSession (some "abc123") none).storedToken = none) :=
  sessionAccess_missing_params_short_circuit (some "abc123") none (.ok none) .ok
    (Or.inr rfl)

/-- C5 (confirmed): on Map View load with a truthy URL token, the URL token
is written to `sos_access_token` before the fetch and is the token fetched
with (in the original `MapTracker.tsx`, in the newer iteration, and in
`getAccessToken`), whatever different token storage held; the stored token
is used only when the URL carries none. -/
theorem mapView_url_token_precedence (u s : String) (hu : u ≠ "") (hs : s ≠ "")
    (_hne : u ≠ s) :
    mapTrackerInitEvents (some u) (some s) = [.storeWrite u, .fetchWith u]
    ∧ initialiseEvents (some u) (some s) = [.storeWrite u, .fetchWith u]
    ∧ TokenValidator.getAccessToken (some u) (some s) = (some u, some u)
    ∧ mapTrackerInitEvents none (some s) = [.fetchWith s]
    ∧ initialiseEvents none (some s) = [.fetchWith s]
    ∧ TokenValidator.getAccessToken none (some s) = (some s, some s) := by
  simp [mapTrackerInitEvents, initialiseEvents, TokenValidator.getAccessToken,
    strTruthy, hu, hs]

/-- Witness for C5: URL token `"tokA"` and stored token `"tokB"`. -/
theorem mapView_url_token_precedence_witness :
    mapTrackerInitEvents (some "tokA") (some "tokB")
        = [.storeWrite "tokA", .fetchWith "tokA"]
    ∧ initialiseEvents (some "tokA") (some "tokB")
        = [.storeWrite "tokA", .fetchWith "tokA"]
    ∧ TokenValidator.getAccessToken (some "tokA") (some "tokB")
        = (some "tokA", some "tokA")
    ∧ mapTrackerInitEvents none (some "tokB") = [.fetchWith "tokB"]
    ∧ initialiseEvents none (some "tokB") = [.fetchWith "tokB"]
    ∧ TokenValidator.getAccessToken none (some "tokB")
        = (some "tokB", some "tokB") :=
  mapView_url_token_precedence "tokA" "tokB" (by decide) (by decide) (by decide)

/-- C6 (code behavior at the failing input): in the anonymous polling mode,
after a first successful tick has rendered the data, a single failed second
tick puts the view into the error state in both Map View iterations.  In
`MapTracker.tsx` the guard meant to prevent this reads the `loading` value
captured by the mount-effect closure, which is permanently `true`, so the
error is set and the error view replaces the map even though the session
data is still held; the newer iteration sets the error unconditionally.
A run with only the successful tick renders the map, confirming the error
is caused by the single failed tick. -/
theorem poll_failed_tick_after_success_shows_error :
    render (pollRun [some (0 : Nat), none])
        = .errorView "Could not load SOS session data. Please try refreshing."
    ∧ render (pollRun [some (0 : Nat)]) = .mapView
    ∧ (pollRun [some (0 : Nat), none]).session = some 0
    ∧ (pollRun001 [some (0 : Nat), none]).error
        = some "Unable to load SOS session data."
    ∧ errorOverlayShown (pollRun001 [some (0 : Nat), none]) = true
    ∧ errorOverlayShown (pollRun001 [some (0 : Nat)]) = false := by
  decide

/-- C7 (confirmed): when validation succeeds in the REST gate iteration or
the SDK gate iteration, the final outcome is one fixed record — token and
session id persisted, public-access flag set, no error, redirect to the
map with the token in the URL — for every outcome of the access-log
append, which is attempted inside its own try/catch and whose failure is
only logged. -/
theorem sessionAccess_access_log_best_effort
    (sid tok : String) (hsid : sid ≠ "") (htok : tok ≠ "")
    (d : DocData) (f : Fields) (hf : d.fields = some f)
    (ht : f.accessToken = some tok) (patch : PatchOutcome) :
    validateSession (some sid) (some tok) (.ok (some d)) patch
        = { fetched := true, storedToken := some tok, storedSessionId := some sid,
            storedPublicAccess := true, error := none,
            navigateTo := some ("/map/" ++ sid ++ "?token=" ++ tok) }
    ∧ validateSessionSdk (some sid) (some tok) (.data (some tok)) patch
        = { fetched := true, storedToken := some tok, storedSessionId := some sid,
            storedPublicAccess := true, error := none,
            navigateTo := some ("/map/" ++ sid ++ "?token=" ++ tok) } := by
  constructor <;>
    simp [validateSession, validateSessionSdk, strTruthy, hsid, htok, hf, ht]

/-- Witness for C7: the same successful outcome under an ok append, a 403
append, and a throwing append. -/
theorem sessionAccess_access_log_best_effort_witness :
    validateSession (some "s1") (some "abc123")
        (.ok (some ⟨some ⟨some "abc123"⟩⟩)) .ok
        = { fetched := true, storedToken := some "abc123",
            storedSessionId := some "s1", storedPublicAccess := true,
            error := none,
            navigateTo := some ("/map/" ++ "s1" ++ "?token=" ++ "abc123") }
    ∧ validateSession (some "s1") (some "abc123")
        (.ok (some ⟨some ⟨some "abc123"⟩⟩)) (.notOk 403)
        = { fetched := true, storedToken := some "abc123",
            storedSessionId := some "s1", storedPublicAccess := true,
            error := none,
            navigateTo := some ("/map/" ++ "s1" ++ "?token=" ++ "abc123") }
    ∧ validateSessionSdk (some "s1") (some "abc123") (.data (some "abc123"))
        (.thrown "permission denied")
        = { fetched := true, storedToken := some "abc123",
            storedSessionId := some "s1", storedPublicAccess := true,
            error := none,
            navigateTo := some ("/map/" ++ "s1" ++ "?token=" ++ "abc123") } :=
  ⟨(sessionAccess_access_log_best_effort "s1" "abc123" (by decide) (by decide)
      ⟨some ⟨some "abc123"⟩⟩ ⟨some "abc123"⟩ rfl rfl .ok).1,
   (sessionAccess_access_log_best_effort "s1" "abc123" (by decide) (by decide)
      ⟨some ⟨some "abc123"⟩⟩ ⟨some "abc123"⟩ rfl rfl (.notOk 403)).1,
   (sessionAccess_access_log_best_effort "s1" "abc123" (by decide) (by decide)
      ⟨some ⟨some "abc123"⟩⟩ ⟨some "abc123"⟩ rfl rfl
      (.thrown "permission denied")).2⟩

/-- C8 (counterexample): the claim fails as stated on the
`MapTracker.tsx` iteration.  An update with accuracy `-1` (truthy but not
positive) draws an overlay; two consecutive positive-accuracy updates
create two distinct circle objects (ids 0 and 1) instead of reusing one;
and after an update without an accuracy value the previously drawn circle
is still attached to the map. -/
theorem accuracyOverlay_recreated_counterexample :
    (runUpdatesMt [some ⟨1, 2, some (-1)⟩]).2.length = 1
    ∧ (runUpdatesMt [some ⟨1, 2, some 5⟩, some ⟨1, 2, some 5⟩]).2.map CircleObj.id
        = [0, 1]
    ∧ (runUpdatesMt [some ⟨1, 2, some 5⟩, some ⟨1, 2, none⟩]).2.map CircleObj.onMap
        = [true] := by
  decide

/-- C8 (amended): in the newer Map View iteration the accuracy overlay
behaves as claimed: an update with a strictly positive accuracy creates
the circle once and thereafter updates the same object in place (its id is
preserved), and an update with no accuracy value, or a non-positive one,
detaches the existing circle from the map and never creates one. -/
theorem accuracyOverlay_reuse_and_hide (n : Nat) (c : Option CircleObj)
    (l : Location) (a : Int) :
    (l.accuracy = some a → 0 < a → c = none →
      updateAccuracyCircle (n, c) (some l)
        = (n + 1, some ⟨n, (l.latitude, l.longitude), max a 10, true⟩))
    ∧ (l.accuracy = some a → 0 < a → ∀ c0, c = some c0 →
      updateAccuracyCircle (n, c) (some l)
        = (n, some { c0 with center := (l.latitude, l.longitude),
                             radius := max a 10, onMap := true }))
    ∧ (l.accuracy = none →
      updateAccuracyCircle (n, c) (some l)
        = (n, c.map fun c0 => { c0 with onMap := false }))
    ∧ (l.accuracy = some a → a ≤ 0 →
      updateAccuracyCircle (n, c) (some l)
        = (n, c.map fun c0 => { c0 with onMap := false })) := by
  refine ⟨fun ha hpos hc => ?_, fun ha hpos c0 hc => ?_, fun ha => ?_,
    fun ha hle => ?_⟩ <;>
    cases c <;> simp_all [updateAccuracyCircle]

/-- Witness for C8 (amended): creation at accuracy 15, in-place update of
the same object (id 0) at accuracy 7 with the 10-unit radius floor, then
detachment on an update without accuracy. -/
theorem accuracyOverlay_reuse_and_hide_witness :
    updateAccuracyCircle (0, none) (some ⟨1, 2, some 15⟩)
        = (0 + 1, some ⟨0, (1, 2), max 15 10, true⟩)
    ∧ updateAccuracyCircle (1, some ⟨0, (1, 2), 15, true⟩) (some ⟨3, 4, some 7⟩)
        = (1, some ⟨0, (3, 4), max 7 10, true⟩)
    ∧ updateAccuracyCircle (1, some ⟨0, (3, 4), 10, true⟩) (some ⟨3, 4, none⟩)
        = (1, some ⟨0, (3, 4), 10, false⟩) :=
  ⟨(accuracyOverlay_reuse_and_hide 0 none ⟨1, 2, some 15⟩ 15).1 rfl
      (by decide) rfl,
   (accuracyOverlay_reuse_and_hide 1 (some ⟨0, (1, 2), 15, true⟩)
      ⟨3, 4, some 7⟩ 7).2.1 rfl (by decide) ⟨0, (1, 2), 15, true⟩ rfl,
   (accuracyOverlay_reuse_and_hide 1 (some ⟨0, (3, 4), 10, true⟩)
      ⟨3, 4, none⟩ 0).2.2.1 rfl⟩

/-- C9 (confirmed): `validateSosToken` is a total function of its inputs
and the fetch outcome (every branch, including thrown fetches and
malformed bodies, is caught and returns a result — totality is the
embedding itself), and in every result authorization implies the fetched
document is attached while refusal implies no document and a non-null
error message. -/
theorem validateSosToken_result_invariants
    (sessionId token projectId apiKey : String) (outcome : FetchOutcome) :
    ((validateSosToken sessionId token projectId apiKey outcome).isValid = true →
      ∃ d, outcome = .ok (some d)
        ∧ (validateSosToken sessionId token projectId apiKey outcome).sessionData
            = some d)
    ∧ ((validateSosToken sessionId token projectId apiKey outcome).isValid = false →
      (validateSosToken sessionId token projectId apiKey outcome).sessionData = none
        ∧ (validateSosToken sessionId token projectId apiKey outcome).error ≠ none) := by
  by_cases hp : sessionId = "" ∨ token = "" ∨ projectId = "" ∨ apiKey = ""
  · constructor <;> intro hv <;> simp_all [validateSosToken, hp]
  · cases outcome with
    | thrown m =>
        constructor <;> intro hv <;> simp_all [validateSosToken, hp]
    | notOk s st =>
        by_cases h404 : s = 404 <;> constructor <;> intro hv <;>
          simp_all [validateSosToken, hp, h404]
    | ok data =>
        cases data with
        | none => constructor <;> intro hv <;> simp_all [validateSosToken, hp]
        | some d =>
            cases hd : d.fields with
            | none => constructor <;> intro hv <;> simp_all [validateSosToken, hp]
            | some f =>
                by_cases htr : strTruthy f.accessToken = true <;>
                  by_cases heq : f.accessToken = some token <;>
                    constructor <;> intro hv <;>
                      simp_all [validateSosToken, hp]

/-- Witness for C9: the authorized case attaches the fetched document and
the 500-status case attaches none with a non-null error. -/
theorem validateSosToken_result_invariants_witness :
    (∃ d, (FetchOutcome.ok (some ⟨some ⟨some "abc123"⟩⟩) : FetchOutcome)
        = .ok (some d)
      ∧ (validateSosToken "s1" "abc123" "proj" "key"
          (.ok (some ⟨some ⟨some "abc123"⟩⟩))).sessionData = some d)
    ∧ ((validateSosToken "s1" "abc123" "proj" "key"
          (.notOk 500 "Internal Server Error")).sessionData = none
      ∧ (validateSosToken "s1" "abc123" "proj" "key"
          (.notOk 500 "Internal Server Error")).error ≠ none) :=
  ⟨(validateSosToken_result_invariants "s1" "abc123" "proj" "key"
      (.ok (some ⟨some ⟨some "abc123"⟩⟩))).1 (by decide),
   (validateSosToken_result_invariants "s1" "abc123" "proj" "key"
      (.notOk 500 "Internal Server Error")).2 (by decide)⟩

/-- C10 (confirmed): any fetch whose URL does not contain both
`firestore.googleapis.com` and `sos_sessions` is forwarded by both
interceptor iterations with the input and init arguments unchanged, and
any streaming request (URL containing `/Listen/` or `channel?`) is
forwarded unchanged by the second iteration regardless of the rest of the
URL or the token state. -/
theorem interceptor_forwards_unmatched_unchanged
    (tokenVal : Option String) (input : FetchInput) (init : Nat) :
    (¬(jsIncludes input.url "firestore.googleapis.com" = true
        ∧ jsIncludes input.url "sos_sessions" = true) →
      newFetchV1Call tokenVal input init = (input, init)
      ∧ newFetchV2Call tokenVal input init = (input, init))
    ∧ ((jsIncludes input.url "/Listen/" = true
        ∨ jsIncludes input.url "channel?" = true) →
      newFetchV2Call tokenVal input init = (input, init)) := by
  constructor
  · intro h
    by_cases hf : jsIncludes input.url "firestore.googleapis.com" = true <;>
      by_cases hsos : jsIncludes input.url "sos_sessions" = true <;>
        by_cases htr : strTruthy tokenVal = true <;>
          by_cases hl : (jsIncludes input.url "/Listen/"
              || jsIncludes input.url "channel?") = true <;>
            simp_all [newFetchV1Call, newFetchV2Call, newFetchV1, newFetchV2]
  · intro h
    by_cases hf : jsIncludes input.url "firestore.googleapis.com" = true <;>
      by_cases htr : strTruthy tokenVal = true <;>
        simp_all [newFetchV2Call, newFetchV2]

/-- Witness for C10: a non-Firestore URL is forwarded unchanged by both
iterations, and a Firestore streaming channel URL is forwarded unchanged
by the second iteration even with a token available. -/
theorem interceptor_forwards_unmatched_unchanged_witness :
    (newFetchV1Call (some "tok") (FetchInput.str "https://example.com/api") 0
        = (FetchInput.str "https://example.com/api", 0)
      ∧ newFetchV2Call (some "tok") (FetchInput.str "https://example.com/api") 0
        = (FetchInput.str "https://example.com/api", 0))
    ∧ newFetchV2Call (some "tok")
        (FetchInput.str "https://firestore.googleapis.com/v1/p/db/Listen/channel?x=1") 0
        = (FetchInput.str "https://firestore.googleapis.com/v1/p/db/Listen/channel?x=1", 0) :=
  ⟨(interceptor_forwards_unmatched_unchanged (some "tok")
      (FetchInput.str "https://example.com/api") 0).1 (by decide),
   (interceptor_forwards_unmatched_unchanged (some "tok")
      (FetchInput.str "https://firestore.googleapis.com/v1/p/db/Listen/channel?x=1")
      0).2 (Or.inl (by decide))⟩

end SosTracker
